import Mathlib

/-!
Verification development for the corpus-analysis pipeline of
`utils/analysis.py` (vocabulary analysis, TF-IDF matrix building,
top-term selection, and similarity projection).

The Python functions are shallowly embedded as executable Lean
definitions.  Documents are modelled post-tokenization as lists of token
strings (tokenization itself is performed by the external vectorizer's
token pattern and is not part of the repository's logic).  Real-valued
scores are modelled with `ℚ`.  Library calls made by the repository
(`sklearn`'s `TfidfVectorizer`, `TSNE`, `MDS`, `cosine_similarity`, and
`pandas`' `sort_values`) are embedded by their documented input/output
contracts; each such embedding carries a doc comment stating the
contract it reflects.  Exceptions raised by the code (all `ValueError`s
surfacing from the libraries or from explicit `raise` statements) are
modelled with the spec's error taxonomy via `Except`.
-/

/-- Error taxonomy of the specification.  The Python code signals all of
these as `ValueError` (either raised explicitly, as in `get_top_terms`,
or surfacing from `sklearn`/`numpy`); the spec gives each failure mode a
name, which we reuse as constructors.  `indexError` models a Python
`IndexError` from indexing a list with an out-of-range position. -/
inductive AnalysisError where
  | emptyCorpus
  | emptyVocabulary
  | unsupportedInputType
  | invalidMethod
  | insufficientItems
  | indexError
deriving DecidableEq

deriving instance DecidableEq for Except

/-- Kernel-evaluable rational arithmetic.  The library's `Rat.add`,
`Rat.sub`, `Rat.mul` and `Rat.inv` are deliberately irreducible, which
blocks evaluation of concrete instances by `decide`; these helpers
compute the same values through `Rat.divInt`, which does reduce.  The
theorems `ratAdd_eq`, `ratSub_eq`, `ratMul_eq` and `ratDiv_eq` below
identify them with the ordinary field operations on `ℚ`. -/
def ratAdd (a b : ℚ) : ℚ := Rat.divInt (a.num * b.den + b.num * a.den) (a.den * b.den)

/-- Multiplication counterpart of `ratAdd`. -/
def ratMul (a b : ℚ) : ℚ := Rat.divInt (a.num * b.num) (a.den * b.den)

/-- Division counterpart of `ratAdd` (python true division). -/
def ratDiv (a b : ℚ) : ℚ := Rat.divInt (a.num * b.den) (a.den * b.num)

/-- Sum of a list of rationals through `ratAdd` (`numpy`/python `sum`). -/
def ratSum (l : List ℚ) : ℚ := l.foldr ratAdd 0

/-- Python `min(a, b)` on two numbers: the second argument when it is
strictly smaller, the first otherwise. -/
def pyMin (a b : ℚ) : ℚ := if b < a then b else a

/-- Lexicographic order on code-point sequences, the order python and
`numpy` use when sorting the vocabulary strings of this corpus
(`get_feature_names_out` returns a sorted array).  Defined directly so
that the kernel can evaluate it (the library's `String` order is
defined through opaque iterator primitives). -/
def charsLe : List Char → List Char → Bool
  | [], _ => true
  | _ :: _, [] => false
  | a :: as, b :: bs =>
    if a.toNat < b.toNat then true
    else if b.toNat < a.toNat then false
    else charsLe as bs

/-- String comparison via `charsLe`. -/
def strLe (a b : String) : Bool := charsLe a.data b.data

/-- Embedding of `pandas.sort_values(key, ascending=False)` (used via
`DataFrame.sort_values("score", ascending=False)`,
`Series.sort_values(ascending=False)` and
`freq_df.sort_values("frequency", ascending=False)`).  pandas'
`nargsort` computes an ascending `argsort` of the key and, for
`ascending=False`, reverses the resulting indexer, so a descending sort
is the reverse of an ascending sort.  numpy's default `quicksort` is
unstable in general but coincides with a stable sort on small inputs
(its insertion-sort cutoff); we model the ascending pass as a stable
insertion sort. -/
def sort_values_desc {α β : Type} [LinearOrder β] (key : α → β) (l : List α) : List α :=
  (l.insertionSort (fun a b => key a ≤ key b)).reverse

/-- Vocabulary extraction of `TfidfVectorizer.fit`/`fit_transform` as
used in `analyze_vocabulary` and `generate_tfidf_matrix`: the distinct
tokens of the corpus that are not stop words, in sorted order
(`get_feature_names_out` returns the vocabulary sorted). -/
def buildVocabulary (stopWords : List String) (docs : List (List String)) : List String :=
  ((docs.flatten.filter (fun t => !stopWords.contains t)).dedup).insertionSort
    (fun a b => strLe a b = true)

/-- One row of the `freq_df` frame built by `analyze_vocabulary`:
columns `word`, `frequency`, `percentage`, `cumulative_percentage`. -/
structure FreqRow where
  word : String
  frequency : Nat
  percentage : ℚ
  cumulative_percentage : ℚ
deriving DecidableEq

/-- The `freq_df["cumulative_percentage"] = freq_df["percentage"].cumsum()`
step: attach to each (already sorted) row the running sum of the
`percentage` column, starting from `acc`. -/
def addCumulative (acc : ℚ) : List (String × Nat × ℚ) → List FreqRow
  | [] => []
  | (w, f, p) :: rest =>
      { word := w, frequency := f, percentage := p,
        cumulative_percentage := ratAdd acc p } :: addCumulative (ratAdd acc p) rest

/-- Embedding of `analyze_vocabulary(texts, min_freq)` (the `min_freq`
parameter only feeds the `stats` dictionary, which no claim concerns, so
it is omitted).  The vectorizer is fitted on the preprocessed texts and
`words = vectorizer.get_feature_names_out()` is the (distinct, sorted)
vocabulary; `word_freq = Counter(words)` counts occurrences *in that
feature-name list*; `freq_df` gets a `percentage` column relative to
`total_words = len(words)`, is sorted descending by `frequency`, and
receives a cumulative-percentage column.  When the vocabulary is empty
(empty corpus, or every token a stop word) `vectorizer.fit` raises
`ValueError("empty vocabulary ...")`, the spec's `EmptyCorpusError`. -/
def analyze_vocabulary (stopWords : List String) (docs : List (List String)) :
    Except AnalysisError (List FreqRow) :=
  let words := buildVocabulary stopWords docs
  if words = [] then .error .emptyCorpus
  else
    let total_words : ℚ := (words.length : ℚ)
    let rows := words.map (fun w =>
      (w, words.count w, ratMul (ratDiv ((words.count w : Nat) : ℚ) total_words) 100))
    let sorted := sort_values_desc (fun r => r.2.1) rows
    .ok (addCumulative 0 sorted)

/-- Document frequency of a term: the number of documents of the corpus
that contain it at least once (glossary of the spec; computed by
`CountVectorizer._limit_features` from the count matrix). -/
def docFreq (docs : List (List String)) (t : String) : Nat :=
  (docs.filter (fun d => t ∈ d)).length

/-- Corpus-wide term frequency: total number of occurrences of the term
across all documents (the `tfs = X.sum(axis=0)` used by
`_limit_features` to rank terms for the `max_features` cap). -/
def corpusTermFreq (docs : List (List String)) (t : String) : Nat :=
  docs.flatten.count t

/-- Vocabulary selection of `generate_tfidf_matrix(texts, max_terms,
min_doc_freq)`, i.e. of `TfidfVectorizer(stop_words=...,
max_features=max_terms, min_df=min_doc_freq).fit_transform`:
stop words are removed during tokenization; terms occurring in fewer
than `min_doc_freq` documents are dropped (`min_df`); if more than
`max_terms` terms remain, the `max_terms` ones with the highest
corpus-wide term frequency are kept (`max_features`; ties are
implementation-defined in numpy's argsort, modelled here via the same
reversed stable sort as `sort_values_desc`), and the surviving
vocabulary stays term-sorted.  If no term survives, `fit_transform`
raises (`empty vocabulary` / `After pruning, no terms remain`), the
spec's `EmptyVocabularyError`.  The matrix itself (the TF-IDF weights)
is not needed by any claim and is not modelled. -/
def generate_tfidf_vocabulary (stopWords : List String) (docs : List (List String))
    (max_terms min_doc_freq : Nat) : Except AnalysisError (List String) :=
  let processed := docs.map (fun d => d.filter (fun t => !stopWords.contains t))
  let vocab := buildVocabulary stopWords docs
  let kept := vocab.filter (fun t => decide (min_doc_freq ≤ docFreq processed t))
  if kept = [] then .error .emptyVocabulary
  else if kept.length ≤ max_terms then .ok kept
  else
    .ok (((sort_values_desc (fun t => corpusTermFreq processed t) kept).take
      max_terms).insertionSort (fun a b => strLe a b = true))

/-- The input shapes accepted (or not) by `get_top_terms`: a pandas
`DataFrame` indexed by term with a `score` column, a pandas `Series`
(term-indexed scores), a python `dict` of term to score, and — as the
representative unsupported shape named by the spec — a plain list of
tuples.  Entries are kept in input/insertion order. -/
inductive TfidfResults where
  | dataframe (rows : List (String × ℚ))
  | series (entries : List (String × ℚ))
  | dict (entries : List (String × ℚ))
  | listOfTuples (entries : List (String × ℚ))

/-- Embedding of `get_top_terms(tfidf_results, n_terms)`: a `DataFrame`
is sorted by its `score` column descending; a `Series` or `dict` is
wrapped in `pd.Series` (preserving insertion order) and sorted
descending; anything else raises
`ValueError("tfidf_results must be DataFrame, Series or dict")`, the
spec's `UnsupportedInputTypeError`.  `.head(n_terms).index.tolist()`
takes the first `n_terms` index entries. -/
def get_top_terms (tfidf_results : TfidfResults) (n_terms : Nat) :
    Except AnalysisError (List String) :=
  match tfidf_results with
  | .dataframe rows => .ok (((sort_values_desc Prod.snd rows).take n_terms).map Prod.fst)
  | .series entries => .ok (((sort_values_desc Prod.snd entries).take n_terms).map Prod.fst)
  | .dict entries => .ok (((sort_values_desc Prod.snd entries).take n_terms).map Prod.fst)
  | .listOfTuples _ => .error .unsupportedInputType

/-- Arithmetic mean of a list of rationals (`numpy`'s `mean`; the empty
case never arises on the paths proved about). -/
def listMean (l : List ℚ) : ℚ := ratDiv (ratSum l) ((l.length : Nat) : ℚ)

/-- The `matrix.mean(axis=0).A1` of the Python code: one mean per
column, averaging down the rows. -/
def colMeans (m : List (List ℚ)) : List ℚ := m.transpose.map listMean

/-- The `matrix.mean(axis=1).A1` of the Python code: one mean per row,
averaging across the columns. -/
def rowMeans (m : List (List ℚ)) : List ℚ := m.map listMean

/-- Embedding of `numpy.argsort` (ascending): the indices of the list
sorted by value.  numpy's default `quicksort` leaves the order of equal
values implementation-defined (it is stable below its insertion-sort
cutoff); the stable order is used here, and every concrete input proved
about has pairwise-distinct values, where all sorts agree. -/
def argsort (v : List ℚ) : List Nat :=
  ((v.enum).insertionSort (fun a b => a.2 ≤ b.2)).map Prod.fst

/-- The `mean_tfidf.argsort()[-n:][::-1]` idiom of the Python code (with
`n ≥ 1`): the last `n` entries of the ascending argsort, reversed, i.e.
the indices of the `n` largest values, largest first. -/
def topIndices (n : Nat) (v : List ℚ) : List Nat :=
  ((argsort v).drop ((argsort v).length - n)).reverse

/-- The perplexity expression `min(30, len(labels) - 1)` passed to
`TSNE` by `plot_similarities` (the subtraction is python `int`
arithmetic, so it can be negative). -/
def perplexityPlotSimilarities (nLabels : Nat) : ℚ :=
  pyMin 30 (((nLabels : Int) - 1 : Int) : ℚ)

/-- The perplexity expression `min(30, len(feature_names) / 4)` passed
to `TSNE` by `plot_word_similarities_tsne` (python true division). -/
def perplexityWordSimilaritiesTsne (nFeatures : Nat) : ℚ :=
  pyMin 30 (Rat.divInt (nFeatures : Int) 4)

/-- Contract of `sklearn.manifold.TSNE(n_components=2, perplexity=p,
random_state=42).fit_transform` on `nSamples` vectors: sklearn's
parameter validation requires `perplexity > 0` and its fit requires
`perplexity < n_samples`, raising a `ValueError` otherwise — the way an
under-populated input surfaces, mapped to the spec's
`InsufficientItemsError`.  The returned 2D coordinates are the output of
a seeded stochastic optimisation whose values no claim depends on; only
their number (one coordinate pair per sample) is modelled. -/
def tsneFitTransform (perplexity : ℚ) (nSamples : Nat) :
    Except AnalysisError (List (ℚ × ℚ)) :=
  if perplexity ≤ 0 then .error .insufficientItems
  else if (nSamples : ℚ) ≤ perplexity then .error .insufficientItems
  else .ok (List.replicate nSamples (0, 0))

/-- Contract of `sklearn.metrics.pairwise.cosine_similarity(m)` as used
by the `mds` branch: its `check_array` rejects an input with zero
samples (`ValueError: Found array with 0 sample(s)`), mapped to the
spec's `InsufficientItemsError`; on `n ≥ 1` samples it returns an
`n × n` similarity matrix.  The similarity values are real-valued
(they involve square-root norms) and no claim about `plot_similarities`
depends on them, so only the success/failure contract is modelled. -/
def cosineSimilarityCheck (m : List (List ℚ)) : Except AnalysisError Unit :=
  if m.length = 0 then .error .insufficientItems else .ok ()

/-- Contract of `sklearn.manifold.MDS(n_components=2,
dissimilarity="precomputed", random_state=42).fit_transform` on an
`n × n` dissimilarity matrix with `n ≥ 1`: the SMACOF iteration runs
without any sample-count validation and returns one 2D coordinate pair
per sample (for `n = 1` the stress is zero and the loop terminates
normally).  As with t-SNE, the coordinate values are seeded-stochastic
and unused by every claim; only their number is modelled. -/
def mdsFitTransform (nSamples : Nat) : Except AnalysisError (List (ℚ × ℚ)) :=
  .ok (List.replicate nSamples (0, 0))

/-- Python `labels[i]` on a list: the element at `i`, or an
`IndexError` when `i` is out of range. -/
def pyGet {α : Type} (l : List α) (i : Nat) : Except AnalysisError α :=
  match l.get? i with
  | some a => .ok a
  | none => .error .indexError

/-- The outputs of `plot_similarities` that carry pipeline logic: the
embedded 2D coordinates and the emphasis subset actually annotated
(`labels_to_annotate` / `coords_to_annotate`).  Rendering details
(colors, legend, the annotation loop itself) are external. -/
structure SimilarityProjection where
  coords : List (ℚ × ℚ)
  labels_to_annotate : List String
  coords_to_annotate : List (ℚ × ℚ)
deriving DecidableEq

/-- Embedding of `plot_similarities(tfidf_matrix, labels, method=...,
is_documents=..., top_terms=...)` up to the point where the annotation
subset is fixed (the remaining code only draws).  Faithful to the
source: the matrix is transposed when `is_documents` is false; `method`
is compared against the strings `"tsne"` and `"mds"`, anything else
raising `ValueError("Method must be 'tsne' or 'mds'")` (the spec's
`InvalidMethodError`); the `tsne` branch passes perplexity
`min(30, len(labels) - 1)`; the `mds` branch computes
`1 - cosine_similarity(matrix)` and fits MDS on it; when `top_terms` is
a nonzero integer (`if top_terms and isinstance(top_terms, int)` — `0`
is falsy), the emphasized indices come from
`tfidf_matrix.mean(axis=0)` when `is_documents` else
`tfidf_matrix.mean(axis=1)` — note these are means over the *original*
matrix, axis chosen exactly as in the source — and `labels[i]` /
`coords[i]` are looked up at those indices. -/
def plot_similarities (tfidf_matrix : List (List ℚ)) (labels : List String)
    (method : String) (is_documents : Bool) (top_terms : Option Nat) :
    Except AnalysisError SimilarityProjection :=
  let matrix := if is_documents then tfidf_matrix else tfidf_matrix.transpose
  let coordsE : Except AnalysisError (List (ℚ × ℚ)) :=
    if method = "tsne" then
      tsneFitTransform (perplexityPlotSimilarities labels.length) matrix.length
    else if method = "mds" then
      match cosineSimilarityCheck matrix with
      | .error e => .error e
      | .ok _ => mdsFitTransform matrix.length
    else .error .invalidMethod
  match coordsE with
  | .error e => .error e
  | .ok coords =>
    match top_terms with
    | some n =>
        if n ≠ 0 then
          let mean_tfidf := if is_documents then colMeans tfidf_matrix else rowMeans tfidf_matrix
          let top_indices := topIndices n mean_tfidf
          match top_indices.mapM (pyGet labels), top_indices.mapM (pyGet coords) with
          | .ok labels_to_annotate, .ok coords_to_annotate =>
              .ok ⟨coords, labels_to_annotate, coords_to_annotate⟩
          | .error e, _ => .error e
          | .ok _, .error e => .error e
        else .ok ⟨coords, labels, coords⟩
    | none => .ok ⟨coords, labels, coords⟩

/-- The default of the `similarity_threshold` parameter of
`plot_word_similarities_mds` (`similarity_threshold=0.3`). -/
def mdsSimilarityThresholdDefault : ℚ := 3/10

/-- The edge-drawing loop of `plot_word_similarities_mds`: for
`i in range(len(top_terms))`, `j in range(i + 1, len(top_terms))`, a
connecting line is drawn exactly when
`similarities[i, j] > similarity_threshold`.  `n` is the number of
emphasized (top) terms and `similarities` their pairwise
cosine-similarity matrix, passed in as computed upstream. -/
def mdsEdges (n : Nat) (similarities : Nat → Nat → ℚ) (threshold : ℚ) :
    List (Nat × Nat) :=
  (List.range n).flatMap fun i =>
    ((List.range n).filter fun j =>
      decide (i < j) && decide (threshold < similarities i j)).map fun j => (i, j)

/-- Modelled from the spec: the Top-Term Selector's ranking as the spec
words it — "descending by score; ties broken by input/insertion order,
since no secondary key is defined" — i.e. a *stable descending* sort
followed by taking the first `n` identifiers.  Kept separate from
`get_top_terms` (which reverses a stable ascending sort, flipping tie
order) so the two can be compared on concrete inputs. -/
def specTopTerms (rows : List (String × ℚ)) (n : Nat) : List String :=
  ((rows.insertionSort (fun a b => b.2 ≤ a.2)).take n).map Prod.fst

/-- Modelled from the spec: the Similarity Projector's emphasis subset —
"select the N items with the highest mean weight across the matrix
(column-mean if items are terms, row-mean if items are documents)".
Kept separate from `plot_similarities` (whose hard-coded axis choice is
the opposite) so the two can be compared on concrete inputs. -/
def specEmphasisIndices (m : List (List ℚ)) (is_documents : Bool) (n : Nat) : List Nat :=
  topIndices n (if is_documents then rowMeans m else colMeans m)

/-- The helper `ratAdd` computes rational addition. -/
theorem ratAdd_eq (a b : ℚ) : ratAdd a b = a + b := by
  have ha : ((a.den : ℚ)) ≠ 0 := Nat.cast_ne_zero.mpr a.den_nz
  have hb : ((b.den : ℚ)) ≠ 0 := Nat.cast_ne_zero.mpr b.den_nz
  have ha' : ((a.num : ℚ)) = a * a.den := (div_eq_iff ha).mp (Rat.num_div_den a)
  have hb' : ((b.num : ℚ)) = b * b.den := (div_eq_iff hb).mp (Rat.num_div_den b)
  rw [ratAdd, Rat.divInt_eq_div]
  push_cast
  rw [div_eq_iff (mul_ne_zero ha hb), ha', hb']
  ring

/-- The helper `ratMul` computes rational multiplication. -/
theorem ratMul_eq (a b : ℚ) : ratMul a b = a * b := by
  have ha : ((a.den : ℚ)) ≠ 0 := Nat.cast_ne_zero.mpr a.den_nz
  have hb : ((b.den : ℚ)) ≠ 0 := Nat.cast_ne_zero.mpr b.den_nz
  have ha' : ((a.num : ℚ)) = a * a.den := (div_eq_iff ha).mp (Rat.num_div_den a)
  have hb' : ((b.num : ℚ)) = b * b.den := (div_eq_iff hb).mp (Rat.num_div_den b)
  rw [ratMul, Rat.divInt_eq_div]
  push_cast
  rw [div_eq_iff (mul_ne_zero ha hb), ha', hb']
  ring

/-- The helper `ratDiv` computes rational division. -/
theorem ratDiv_eq (a b : ℚ) : ratDiv a b = a / b := by
  have ha : ((a.den : ℚ)) ≠ 0 := Nat.cast_ne_zero.mpr a.den_nz
  have hb : ((b.den : ℚ)) ≠ 0 := Nat.cast_ne_zero.mpr b.den_nz
  have ha' : ((a.num : ℚ)) = a * a.den := (div_eq_iff ha).mp (Rat.num_div_den a)
  have hb' : ((b.num : ℚ)) = b * b.den := (div_eq_iff hb).mp (Rat.num_div_den b)
  rcases eq_or_ne b 0 with hb0 | hb0
  · subst hb0
    simp [ratDiv, Rat.divInt_eq_div]
  · have hbnum : ((b.num : ℚ)) ≠ 0 := by
      intro h0
      apply hb0
      rw [← Rat.num_div_den b, h0, zero_div]
    rw [ratDiv, Rat.divInt_eq_div]
    push_cast
    rw [div_eq_div_iff (mul_ne_zero ha hbnum) hb0, ha', hb']
    ring

/-- The helper `ratSum` computes the sum of a list. -/
theorem ratSum_eq : ∀ l : List ℚ, ratSum l = l.sum
  | [] => rfl
  | a :: l => by
      rw [ratSum, List.foldr_cons, show List.foldr ratAdd 0 l = ratSum l from rfl,
        ratSum_eq l, ratAdd_eq, List.sum_cons]

/-- The helper `pyMin` computes the binary minimum. -/
theorem pyMin_eq (a b : ℚ) : pyMin a b = min a b := by
  rw [pyMin]
  split
  · exact (min_eq_right (le_of_lt (by assumption))).symm
  · exact (min_eq_left (not_lt.mp (by assumption))).symm

/-- The pass `addCumulative` leaves the `percentage` column untouched. -/
theorem addCumulative_map_percentage (acc : ℚ) (l : List (String × Nat × ℚ)) :
    (addCumulative acc l).map FreqRow.percentage = l.map (fun p => p.2.2) := by
  induction l generalizing acc with
  | nil => rfl
  | cons p rest ih =>
      obtain ⟨w, f, q⟩ := p
      simp [addCumulative, ih]

/-- The pass `addCumulative` leaves the `frequency` column untouched. -/
theorem addCumulative_map_frequency (acc : ℚ) (l : List (String × Nat × ℚ)) :
    (addCumulative acc l).map FreqRow.frequency = l.map (fun p => p.2.1) := by
  induction l generalizing acc with
  | nil => rfl
  | cons p rest ih =>
      obtain ⟨w, f, q⟩ := p
      simp [addCumulative, ih]

/-- When every percentage is nonnegative, the cumulative column produced
by `addCumulative` is non-decreasing along the list, and every
cumulative value is at least the starting accumulator. -/
theorem addCumulative_chain (l : List (String × Nat × ℚ))
    (hpos : ∀ p ∈ l, 0 ≤ p.2.2) (acc : ℚ) :
    List.Chain' (fun a b : FreqRow => a.cumulative_percentage ≤ b.cumulative_percentage)
      (addCumulative acc l)
    ∧ ∀ r ∈ addCumulative acc l, acc ≤ r.cumulative_percentage := by
  induction l generalizing acc with
  | nil => exact ⟨List.chain'_nil, by intro r hr; cases hr⟩
  | cons p rest ih =>
      obtain ⟨w, f, q⟩ := p
      have hq : 0 ≤ q := hpos (w, f, q) (List.mem_cons_self _ _)
      have hrest : ∀ p ∈ rest, 0 ≤ p.2.2 := fun p hp => hpos p (List.mem_cons_of_mem _ hp)
      obtain ⟨ihChain, ihGe⟩ := (ih hrest) (ratAdd acc q)
      refine ⟨?_, ?_⟩
      · rw [addCumulative, List.chain'_cons']
        refine ⟨?_, ihChain⟩
        intro y hy
        have hy' : y ∈ addCumulative (ratAdd acc q) rest := List.mem_of_mem_head? hy
        exact ihGe y hy'
      · intro r hr
        rw [addCumulative, List.mem_cons] at hr
        rcases hr with hr | hr
        · subst hr
          simp only [ratAdd_eq]
          linarith
        · have := ihGe r hr
          rw [ratAdd_eq] at this
          linarith

/-- Sorting with `sort_values_desc` permutes the input. -/
theorem sort_values_desc_perm {α β : Type} [LinearOrder β] (key : α → β) (l : List α) :
    (sort_values_desc key l).Perm l := by
  rw [sort_values_desc]
  exact (List.reverse_perm _).trans (List.perm_insertionSort _ _)

/-- Sorting with `sort_values_desc` orders descending by the key. -/
theorem sort_values_desc_pairwise {α β : Type} [LinearOrder β] (key : α → β) (l : List α) :
    (sort_values_desc key l).Pairwise (fun a b => key b ≤ key a) := by
  rw [sort_values_desc]
  haveI : IsTotal α (fun a b => key a ≤ key b) := ⟨fun a b => le_total (key a) (key b)⟩
  haveI : IsTrans α (fun a b => key a ≤ key b) := ⟨fun _ _ _ h h' => le_trans h h'⟩
  have hs := List.sorted_insertionSort (fun a b => key a ≤ key b) l
  rw [List.Sorted] at hs
  exact (List.pairwise_reverse).mpr hs

/-- The vocabulary produced by the vectorizer embedding has no
duplicate terms (it sorts a deduplicated token list). -/
theorem buildVocabulary_nodup (stopWords : List String) (docs : List (List String)) :
    (buildVocabulary stopWords docs).Nodup := by
  rw [buildVocabulary]
  exact ((List.perm_insertionSort _ _).nodup_iff).mpr (List.nodup_dedup _)

/-- C3: for every corpus on which the Vocabulary Analyzer succeeds, the
percentage column of the returned frequency table sums to exactly 100,
and the cumulative-percentage column is monotonically non-decreasing in
the table's order (which is the descending-frequency order produced by
the sort). -/
theorem analyze_vocabulary_percentage_invariants (stopWords : List String)
    (docs : List (List String)) (rows : List FreqRow)
    (h : analyze_vocabulary stopWords docs = .ok rows) :
    (rows.map FreqRow.percentage).sum = 100
    ∧ List.Chain' (fun a b : FreqRow =>
        a.cumulative_percentage ≤ b.cumulative_percentage) rows := by
  simp only [analyze_vocabulary] at h
  split at h
  · cases h
  · rename_i hW
    injection h with h
    subst h
    set words := buildVocabulary stopWords docs with hwords
    set rows0 := words.map (fun w =>
      (w, words.count w, ratMul (ratDiv ((words.count w : Nat) : ℚ) ((words.length : Nat) : ℚ)) 100))
      with hrows0
    have hperm : (sort_values_desc (fun r => r.2.1) rows0).Perm rows0 :=
      sort_values_desc_perm _ _
    have hnodup : words.Nodup := buildVocabulary_nodup _ _
    have hn : ((words.length : ℚ)) ≠ 0 :=
      Nat.cast_ne_zero.mpr (fun hlen => hW (List.length_eq_zero.mp hlen))
    have hval : ∀ p ∈ rows0, p.2.2 = 100 / (words.length : ℚ) := by
      intro p hp
      rw [hrows0, List.mem_map] at hp
      obtain ⟨w, hw, rfl⟩ := hp
      simp only [ratMul_eq, ratDiv_eq]
      rw [List.count_eq_one_of_mem hnodup hw]
      push_cast
      field_simp
    have hnonneg : ∀ p ∈ sort_values_desc (fun r : String × Nat × ℚ => r.2.1) rows0,
        0 ≤ p.2.2 := by
      intro p hp
      rw [hval p (hperm.mem_iff.mp hp)]
      positivity
    constructor
    · rw [addCumulative_map_percentage]
      rw [(hperm.map (fun p => p.2.2)).sum_eq]
      have : rows0.map (fun p => p.2.2) =
          List.replicate words.length (100 / (words.length : ℚ)) := by
        rw [List.eq_replicate_iff]
        constructor
        · rw [List.length_map, hrows0, List.length_map]
        · intro b hb
          rw [List.mem_map] at hb
          obtain ⟨p, hp, rfl⟩ := hb
          exact hval p hp
      rw [this, List.sum_replicate, nsmul_eq_mul]
      field_simp
    · exact (addCumulative_chain _ hnonneg 0).1

/-- The cumulative-percentage pass preserves the number of rows. -/
theorem addCumulative_length (acc : ℚ) (l : List (String × Nat × ℚ)) :
    (addCumulative acc l).length = l.length := by
  induction l generalizing acc with
  | nil => rfl
  | cons p rest ih =>
      obtain ⟨w, f, q⟩ := p
      simp [addCumulative, ih]

/-- C4: for every corpus on which the Vocabulary Analyzer succeeds,
every frequency in the returned table equals 1, because the `Counter`
is taken over the vectorizer's deduplicated feature-name list. -/
theorem analyze_vocabulary_frequency_always_one (stopWords : List String)
    (docs : List (List String)) (rows : List FreqRow)
    (h : analyze_vocabulary stopWords docs = .ok rows) :
    rows.map FreqRow.frequency = List.replicate rows.length 1 := by
  simp only [analyze_vocabulary] at h
  split at h
  · cases h
  · injection h with h
    subst h
    set words := buildVocabulary stopWords docs with hwords
    set rows0 := words.map (fun w =>
      (w, words.count w, ratMul (ratDiv ((words.count w : Nat) : ℚ) ((words.length : Nat) : ℚ)) 100))
      with hrows0
    set sorted := sort_values_desc (fun r : String × Nat × ℚ => r.2.1) rows0 with hsorted
    have hnodup : words.Nodup := buildVocabulary_nodup _ _
    rw [addCumulative_map_frequency, List.eq_replicate_iff]
    refine ⟨by rw [List.length_map, addCumulative_length], ?_⟩
    intro b hb
    rw [List.mem_map] at hb
    obtain ⟨p, hp, rfl⟩ := hb
    have hp0 := (sort_values_desc_perm (fun r : String × Nat × ℚ => r.2.1) rows0).mem_iff.mp hp
    rw [hrows0, List.mem_map] at hp0
    obtain ⟨w, hw, rfl⟩ := hp0
    exact List.count_eq_one_of_mem hnodup hw

/-- C7: when the corpus is empty, or no token survives stop-word
removal, the Vocabulary Analyzer fails with the empty-corpus error
(the vectorizer's `empty vocabulary` failure). -/
theorem analyze_vocabulary_empty_corpus (stopWords : List String)
    (docs : List (List String))
    (h : docs.flatten.filter (fun t => !stopWords.contains t) = []) :
    analyze_vocabulary stopWords docs = .error .emptyCorpus := by
  have hv : buildVocabulary stopWords docs = [] := by
    rw [buildVocabulary, h]
    rfl
  simp [analyze_vocabulary, hv]

/-- Witness for C3: on the corpus `[["b","a"],["a"]]` with no stop
words the analyzer succeeds and the invariants hold concretely. -/
theorem analyze_vocabulary_percentage_invariants_witness :
    (([⟨"b",1,50,50⟩, ⟨"a",1,50,100⟩] : List FreqRow).map FreqRow.percentage).sum = 100
    ∧ List.Chain' (fun a b : FreqRow =>
        a.cumulative_percentage ≤ b.cumulative_percentage)
        ([⟨"b",1,50,50⟩, ⟨"a",1,50,100⟩] : List FreqRow) :=
  analyze_vocabulary_percentage_invariants [] [["b","a"],["a"]]
    [⟨"b",1,50,50⟩, ⟨"a",1,50,100⟩] (by decide)

/-- Witness for C4: on the same concrete corpus every frequency is 1. -/
theorem analyze_vocabulary_frequency_always_one_witness :
    ([⟨"b",1,50,50⟩, ⟨"a",1,50,100⟩] : List FreqRow).map FreqRow.frequency
      = List.replicate ([⟨"b",1,50,50⟩, ⟨"a",1,50,100⟩] : List FreqRow).length 1 :=
  analyze_vocabulary_frequency_always_one [] [["b","a"],["a"]]
    [⟨"b",1,50,50⟩, ⟨"a",1,50,100⟩] (by decide)

/-- Witness for C7: a corpus whose only token is a stop word makes the
analyzer fail with the empty-corpus error. -/
theorem analyze_vocabulary_empty_corpus_witness :
    analyze_vocabulary ["the"] [["the"],[]] = .error .emptyCorpus :=
  analyze_vocabulary_empty_corpus ["the"] [["the"],[]] (by decide)

/-- For a term that is not a stop word, document frequency over the
stop-word-filtered corpus equals document frequency over the raw
corpus. -/
theorem docFreq_filter_eq (stopWords : List String) (docs : List (List String))
    (t : String) (ht : stopWords.contains t = false) :
    docFreq (docs.map (fun d => d.filter (fun x => !stopWords.contains x))) t
      = docFreq docs t := by
  rw [docFreq, docFreq, List.filter_map, List.length_map]
  congr 1
  apply List.filter_congr
  intro d _
  have ht' : t ∉ stopWords := by simpa using ht
  simp [List.mem_filter, ht']

/-- C2: whenever the Term-Weight Matrix Builder succeeds, the feature
vocabulary has at most `max_terms` entries and every retained term
occurs in at least `min_doc_freq` documents of the input corpus. -/
theorem generate_tfidf_vocabulary_invariants (stopWords : List String)
    (docs : List (List String)) (max_terms min_doc_freq : Nat) (v : List String)
    (h : generate_tfidf_vocabulary stopWords docs max_terms min_doc_freq = .ok v) :
    v.length ≤ max_terms
    ∧ v.all (fun t => decide (min_doc_freq ≤ docFreq docs t)) = true := by
  simp only [generate_tfidf_vocabulary] at h
  set processed := docs.map (fun d => d.filter (fun x => !stopWords.contains x)) with hproc
  set kept := (buildVocabulary stopWords docs).filter
    (fun t => decide (min_doc_freq ≤ docFreq processed t)) with hkept
  have hKmem : ∀ t ∈ kept, min_doc_freq ≤ docFreq docs t := by
    intro t htk
    rw [hkept, List.mem_filter] at htk
    obtain ⟨htv, htd⟩ := htk
    have hsw : stopWords.contains t = false := by
      rw [buildVocabulary, List.mem_insertionSort, List.mem_dedup, List.mem_filter] at htv
      simpa using htv.2
    rw [← docFreq_filter_eq stopWords docs t hsw, ← hproc]
    simpa using htd
  split at h
  · cases h
  · split at h
    · rename_i hlen
      injection h with h
      subst h
      refine ⟨hlen, ?_⟩
      rw [List.all_eq_true]
      intro t htk
      exact decide_eq_true (hKmem t htk)
    · injection h with h
      subst h
      constructor
      · rw [List.length_insertionSort, List.length_take]
        exact min_le_left _ _
      · rw [List.all_eq_true]
        intro t htk
        rw [List.mem_insertionSort] at htk
        have h2 := List.take_subset _ _ htk
        have h3 := (sort_values_desc_perm (fun t => corpusTermFreq processed t) kept).mem_iff.mp h2
        exact decide_eq_true (hKmem t h3)

/-- Witness for C2: the three-document corpus of the spec's end-to-end
scenario, with `max_terms = 10` and `min_doc_freq = 1`. -/
theorem generate_tfidf_vocabulary_invariants_witness :
    (["climate","news","policy","sports"] : List String).length ≤ 10
    ∧ (["climate","news","policy","sports"] : List String).all
        (fun t => decide (1 ≤ docFreq [["climate","policy"],["climate","news"],["sports"]] t))
        = true :=
  generate_tfidf_vocabulary_invariants [] [["climate","policy"],["climate","news"],["sports"]]
    10 1 ["climate","news","policy","sports"] (by decide)

/-- C5 (amended): for every accepted ranked score collection — a
DataFrame, a Series, or a dict, all carrying the same entry list — the
Top-Term Selector returns exactly `min(N, available)` identifiers,
namely the first `N` of the descending-by-score reordering
`sort_values_desc`, which is a permutation of the input sorted
non-increasingly by score.  Tied scores appear in *reverse* input
order, because pandas' descending sort is the reverse of a stable
ascending sort (see the counterexample). -/
theorem get_top_terms_ranked (rows : List (String × ℚ)) (n : Nat) (ts : List String)
    (r : TfidfResults)
    (hr : r = .dataframe rows ∨ r = .series rows ∨ r = .dict rows)
    (h : get_top_terms r n = .ok ts) :
    ts.length = min n rows.length
    ∧ ts = ((sort_values_desc Prod.snd rows).take n).map Prod.fst
    ∧ (sort_values_desc Prod.snd rows).Perm rows
    ∧ (sort_values_desc Prod.snd rows).Pairwise (fun a b => b.2 ≤ a.2) := by
  rcases hr with rfl | rfl | rfl <;>
    (simp only [get_top_terms] at h
     injection h with h
     subst h
     refine ⟨?_, rfl, sort_values_desc_perm _ _, sort_values_desc_pairwise _ _⟩
     rw [List.length_map, List.length_take, (sort_values_desc_perm Prod.snd rows).length_eq])

/-- Witness for C5, exercising every accepted shape: a DataFrame with
two distinct scores and `N = 1`, a Series with two distinct scores and
`N = 2`, and a dict with one entry and `N = 3`. -/
theorem get_top_terms_ranked_witness :
    ((["x"] : List String).length = min 1 ([("x",(2:ℚ)),("y",1)].length)
      ∧ (["x"] : List String)
          = ((sort_values_desc Prod.snd [("x",(2:ℚ)),("y",1)]).take 1).map Prod.fst
      ∧ (sort_values_desc Prod.snd [("x",(2:ℚ)),("y",1)]).Perm [("x",(2:ℚ)),("y",1)]
      ∧ (sort_values_desc Prod.snd [("x",(2:ℚ)),("y",1)]).Pairwise (fun a b => b.2 ≤ a.2))
    ∧ ((["q","p"] : List String).length = min 2 ([("p",(3:ℚ)),("q",4)].length)
      ∧ (["q","p"] : List String)
          = ((sort_values_desc Prod.snd [("p",(3:ℚ)),("q",4)]).take 2).map Prod.fst
      ∧ (sort_values_desc Prod.snd [("p",(3:ℚ)),("q",4)]).Perm [("p",(3:ℚ)),("q",4)]
      ∧ (sort_values_desc Prod.snd [("p",(3:ℚ)),("q",4)]).Pairwise (fun a b => b.2 ≤ a.2))
    ∧ ((["u"] : List String).length = min 3 ([("u",(5:ℚ))].length)
      ∧ (["u"] : List String)
          = ((sort_values_desc Prod.snd [("u",(5:ℚ))]).take 3).map Prod.fst
      ∧ (sort_values_desc Prod.snd [("u",(5:ℚ))]).Perm [("u",(5:ℚ))]
      ∧ (sort_values_desc Prod.snd [("u",(5:ℚ))]).Pairwise (fun a b => b.2 ≤ a.2)) :=
  ⟨get_top_terms_ranked [("x",2),("y",1)] 1 ["x"] (.dataframe [("x",2),("y",1)])
      (Or.inl rfl) (by decide),
   get_top_terms_ranked [("p",3),("q",4)] 2 ["q","p"] (.series [("p",3),("q",4)])
      (Or.inr (Or.inl rfl)) (by decide),
   get_top_terms_ranked [("u",5)] 3 ["u"] (.dict [("u",5)])
      (Or.inr (Or.inr rfl)) (by decide)⟩

/-- Counterexample for C5 as stated: on two equal scores every accepted
shape — DataFrame, Series and dict alike — returns `["b","a"]`, the
reverse of input order, while the spec's tie policy (ties broken by
input/insertion order, embodied by `specTopTerms`) demands
`["a","b"]`. -/
theorem get_top_terms_tie_order_counterexample :
    get_top_terms (.dataframe [("a",1),("b",1)]) 2 = .ok ["b","a"]
    ∧ get_top_terms (.series [("a",1),("b",1)]) 2 = .ok ["b","a"]
    ∧ get_top_terms (.dict [("a",1),("b",1)]) 2 = .ok ["b","a"]
    ∧ specTopTerms [("a",1),("b",1)] 2 = ["a","b"] := by decide

/-- C6: an input of the unsupported shape (a plain list of tuples)
makes the Top-Term Selector fail with the unsupported-input error, for
every payload and every requested count. -/
theorem get_top_terms_unsupported_input (entries : List (String × ℚ)) (n_terms : Nat) :
    get_top_terms (.listOfTuples entries) n_terms = .error .unsupportedInputType := rfl

/-- C9: an unordered pair is an edge of the word-similarity plot
exactly when its similarity strictly exceeds the threshold, and the
default threshold of `plot_word_similarities_mds` is 0.3. -/
theorem mdsEdges_iff (n : Nat) (similarities : Nat → Nat → ℚ) (threshold : ℚ) (i j : Nat) :
    ((i, j) ∈ mdsEdges n similarities threshold ↔
      i < j ∧ j < n ∧ threshold < similarities i j)
    ∧ mdsSimilarityThresholdDefault = 3/10 := by
  refine ⟨?_, rfl⟩
  rw [mdsEdges]
  simp only [List.mem_flatMap, List.mem_map, List.mem_filter, List.mem_range,
    Bool.and_eq_true, decide_eq_true_eq]
  constructor
  · rintro ⟨a, ha, b, ⟨hb, hab, hthr⟩, heq⟩
    injection heq with h1 h2
    subst h1
    subst h2
    exact ⟨hab, hb, hthr⟩
  · rintro ⟨hij, hjn, hthr⟩
    exact ⟨i, by omega, j, ⟨hjn, hij, hthr⟩, rfl⟩

/-- C10 (amended): the perplexity `plot_similarities` passes to the
embedding is `min(30, n − 1) ≤ n − 1` for every item count `n`; the
perplexity `plot_word_similarities_tsne` passes is `min(30, n / 4)`,
which is at most `n − 1` whenever `n ≥ 2` (but exceeds it for `n ≤ 1`,
see the counterexample). -/
theorem perplexity_at_most_items_sub_one (n : Nat) :
    perplexityPlotSimilarities n ≤ (n : ℚ) - 1
    ∧ (2 ≤ n → perplexityWordSimilaritiesTsne n ≤ (n : ℚ) - 1) := by
  constructor
  · rw [perplexityPlotSimilarities, pyMin_eq]
    have hcast : ((((n : Int) - 1 : Int)) : ℚ) = (n : ℚ) - 1 := by push_cast; ring
    rw [hcast]
    exact min_le_right _ _
  · intro hn
    rw [perplexityWordSimilaritiesTsne, pyMin_eq, Rat.divInt_eq_div]
    have hcast : (((n : Int) : ℚ)) / ((4 : Int) : ℚ) = (n : ℚ) / 4 := by push_cast; ring
    rw [hcast]
    refine le_trans (min_le_right _ _) ?_
    have h2 : (2 : ℚ) ≤ (n : ℚ) := by exact_mod_cast hn
    linarith

/-- Witness for C10's amended statement at `n = 5` and `n = 8`. -/
theorem perplexity_at_most_items_sub_one_witness :
    perplexityPlotSimilarities 5 ≤ ((5 : Nat) : ℚ) - 1
    ∧ perplexityWordSimilaritiesTsne 8 ≤ ((8 : Nat) : ℚ) - 1 :=
  ⟨(perplexity_at_most_items_sub_one 5).1,
   (perplexity_at_most_items_sub_one 8).2 (by decide)⟩

/-- Counterexample for C10 as stated: with a single feature,
`plot_word_similarities_tsne` passes perplexity `min(30, 1/4) = 1/4`,
which is **not** at most `1 − 1 = 0`. -/
theorem perplexity_tsne_plot_exceeds_items_sub_one :
    ¬ (perplexityWordSimilaritiesTsne 1 ≤ ((1 : Nat) : ℚ) - 1) := by
  norm_num [perplexityWordSimilaritiesTsne, pyMin, Rat.divInt_eq_div]

/-- C8 (amended): with fewer than 2 items the `tsne` method fails (its
perplexity `min(30, n − 1)` is non-positive and rejected by the
embedding); the `mds` method fails only when the item set is empty
(the similarity computation rejects an empty input) — on exactly one
item it succeeds (see the counterexample). -/
theorem plot_similarities_few_items (m : List (List ℚ)) (labels : List String)
    (is_documents : Bool) (top_terms : Option Nat) :
    (labels.length < 2 →
      plot_similarities m labels "tsne" is_documents top_terms
        = .error .insufficientItems)
    ∧ ((if is_documents then m else m.transpose) = [] →
      plot_similarities m labels "mds" is_documents top_terms
        = .error .insufficientItems) := by
  constructor
  · intro hlen
    have hp : perplexityPlotSimilarities labels.length ≤ 0 := by
      rw [perplexityPlotSimilarities, pyMin_eq]
      refine le_trans (min_le_right _ _) ?_
      have h1 : labels.length ≤ 1 := by omega
      have h1' : ((labels.length : Int) : ℚ) ≤ 1 := by exact_mod_cast h1
      push_cast at h1' ⊢
      linarith
    have htsne : tsneFitTransform (perplexityPlotSimilarities labels.length)
        (if is_documents then m else m.transpose).length = .error .insufficientItems := by
      rw [tsneFitTransform, if_pos hp]
    simp [plot_similarities, htsne]
  · intro hmat
    have hcos : cosineSimilarityCheck (if is_documents then m else m.transpose)
        = .error .insufficientItems := by
      rw [cosineSimilarityCheck, hmat]
      rfl
    simp [plot_similarities, hcos]

/-- Witness for C8's amended statement: zero labels for the `tsne`
branch and an empty matrix for the `mds` branch. -/
theorem plot_similarities_few_items_witness :
    plot_similarities [] ["d0"] "tsne" true none = .error .insufficientItems
    ∧ plot_similarities [] [] "mds" true none = .error .insufficientItems :=
  ⟨(plot_similarities_few_items [] ["d0"] true none).1 (by decide),
   (plot_similarities_few_items [] [] true none).2 (by decide)⟩

/-- Counterexample for C8 as stated: called with exactly one item and
the `mds` reduction method, the projector does not raise at all — it
returns a projection — although the claim requires
`InsufficientItemsError` for both methods whenever fewer than 2 items
are supplied. -/
theorem plot_similarities_single_item_mds_succeeds :
    plot_similarities [[1,0]] ["d0"] "mds" true none
      = .ok ⟨[(0,0)], ["d0"], [(0,0)]⟩ := by decide

/-- C1: evaluation of the emphasis selection at a failing input.  On
the 3-document × 2-term matrix `[[0,3],[1,0],[1,0]]` with
`is_documents = True` and `top_terms = 1`, `plot_similarities`
annotates document `"d1"` — it ranks items by `mean(axis=0)`, the
per-term column means `[2/3, 1]` — while the row-mean selection the
claim (and the spec) describes, `specEmphasisIndices`, picks index 0
(document `"d0"`, row means `[3/2, 1/2, 1/2]`).  The axes in the
source are swapped relative to the item kind. -/
theorem plot_similarities_emphasis_axis_swapped :
    (plot_similarities [[0,3],[1,0],[1,0]] ["d0","d1","d2"] "mds" true (some 1)).map
      (fun p => p.labels_to_annotate) = .ok ["d1"]
    ∧ specEmphasisIndices [[0,3],[1,0],[1,0]] true 1 = [0] := by decide
